import Mathlib

/-!
Shallow embedding of the Kazagumo player / track code
(src/src/Managers/KazagumoPlayer.ts and the KazagumoTrack file),
together with theorems settling the specification's claims.

Machine integers of the source are JS numbers; durations are modelled
as `Int` (exact for the integral millisecond values involved).
External collaborators (the shoukaku connection, the voice gateway, the
registry) are modelled as emitted effects in an effect list.
-/

namespace Kazagumo

/-- Player lifecycle states, from `PlayerState` in Modules/Interfaces. -/
inductive PlayerState where
  | CONNECTING
  | CONNECTED
  | DISCONNECTING
  | DISCONNECTED
  | DESTROYING
  | DESTROYED
deriving DecidableEq, Repr

/-- Loop modes of the player: the string union `'none' | 'queue' | 'track'`. -/
inductive LoopMode where
  | lnone
  | lqueue
  | ltrack
deriving DecidableEq, Repr

/-- `KazagumoError(code, message)` thrown by the source. -/
structure KazagumoError where
  code : Nat
  message : String
deriving DecidableEq, Repr

/-- JS truthiness of an optional string field (`!!this.author`,
`!this.voiceId`): false for `undefined`/`null` and for the empty
string. -/
def truthyS : Option String → Bool
  | none => false
  | some s => s ≠ ""

/-- Events published on the event bus (`this.emit(Events..., ...)`).
Track payloads are the opaque track ids; other payloads are dropped. -/
inductive Event where
  | playerStart
  | playerEnd (t : Option Nat)
  | playerEmpty
  | playerResolveError (msg : String)
  | playerDestroy
  | playerClosed
  | playerException
  | playerUpdate
  | playerStuck
  | playerResumed
  | debug (msg : String)
deriving DecidableEq, Repr

/-- Observable outward calls of a player operation, in order. -/
inductive Eff where
  | emit (e : Event)
  | shoukakuSetPaused (b : Bool)
  | sendVoiceUpdate (guildId : String) (channelId : Option String)
  | shoukakuPlayTrack (t : Nat)
  | shoukakuStopTrack
  | sendVolume (v : Int)
  | destroyLavalinkPlayer
  | removeAllListeners
  | registryDelete (guildId : String)
  | callPlay
deriving DecidableEq, Repr

/-- Modelled from the spec: the `KazagumoQueue` class
(src/Managers/Supports/KazagumoQueue.ts) is not among the provided
source files; §3/§4.2 of the spec describe it as an ordered sequence of
pending tracks plus singular `current` and `previous` slots, with
`size` the sequence length, `totalSize = size + (1 if current set)`,
and standard `push`/`unshift`/`shift` double-ended operations.
Tracks are opaque ids (`Nat`) at the player level. -/
structure KazagumoQueue where
  pending : List Nat
  current : Option Nat
  previous : Option Nat
deriving DecidableEq, Repr

/-- `queue.length` / `queue.size`: the length of the pending sequence. -/
def KazagumoQueue.size (q : KazagumoQueue) : Nat := q.pending.length

/-- `queue.totalSize`: pending length plus one for a set `current`. -/
def KazagumoQueue.totalSize (q : KazagumoQueue) : Nat :=
  q.size + (if q.current.isSome then 1 else 0)

/-- The mutable fields of `KazagumoPlayer`, plus two booleans recording
the external resources the player still holds (its entry in
`kazagumo.players` and its shoukaku event listeners). -/
structure KazagumoPlayer where
  guildId : String
  voiceId : Option String
  textId : String
  state : PlayerState
  paused : Bool
  playing : Bool
  loop : LoopMode
  queue : KazagumoQueue
  inRegistry : Bool
  listenersAttached : Bool
deriving DecidableEq, Repr

/-- `pause(pause)`. The `typeof pause !== 'boolean'` guard cannot fire for
a `Bool` argument; otherwise, line for line from the source: no-op when
already in the requested paused state or `totalSize` is zero, else flip
`paused`/`playing` and forward to shoukaku. -/
def KazagumoPlayer.pause (b : Bool) (p : KazagumoPlayer) :
    Except KazagumoError (KazagumoPlayer × List Eff) :=
  if p.paused = b ∨ p.queue.totalSize = 0 then .ok (p, [])
  else .ok ({ p with paused := b, playing := !b }, [.shoukakuSetPaused b])

/-- `setTextChannel(textId)`. -/
def KazagumoPlayer.setTextChannel (textId : String) (p : KazagumoPlayer) :
    Except KazagumoError (KazagumoPlayer × List Eff) :=
  if p.state = PlayerState.DESTROYED then .error ⟨1, "Player is already destroyed"⟩
  else .ok ({ p with textId := textId }, [])

/-- `setVoiceChannel(voiceId)`. -/
def KazagumoPlayer.setVoiceChannel (voiceId : String) (p : KazagumoPlayer) :
    Except KazagumoError (KazagumoPlayer × List Eff) :=
  if p.state = PlayerState.DESTROYED then .error ⟨1, "Player is already destroyed"⟩
  else
    .ok ({ p with state := PlayerState.CONNECTING, voiceId := some voiceId },
      [.sendVoiceUpdate p.guildId (some voiceId),
       .emit (.debug ("Player " ++ p.guildId ++ " moved to voice channel " ++ voiceId))])

/-- `setLoop(loop?)`. The argument is a runtime value, so it is modelled
as an optional string exactly as the source checks it. -/
def KazagumoPlayer.setLoop (m : Option String) (p : KazagumoPlayer) :
    Except KazagumoError (KazagumoPlayer × List Eff) :=
  match m with
  | none =>
    if p.loop = LoopMode.lnone then .ok ({ p with loop := LoopMode.lqueue }, [])
    else if p.loop = LoopMode.lqueue then .ok ({ p with loop := LoopMode.ltrack }, [])
    else if p.loop = LoopMode.ltrack then .ok ({ p with loop := LoopMode.lnone }, [])
    else .ok (p, [])
  | some s =>
    if s = "none" then .ok ({ p with loop := LoopMode.lnone }, [])
    else if s = "queue" then .ok ({ p with loop := LoopMode.lqueue }, [])
    else if s = "track" then .ok ({ p with loop := LoopMode.ltrack }, [])
    else .error ⟨1, "loop must be one of 'none', 'queue', 'track'"⟩

/-- The queue-mutation phase of `play(track?, options?)`: displace or
replace `current` for a supplied track, else `shift()` a pending track
into an empty `current` slot. -/
def selectTrack (track? : Option Nat) (replaceCurrent : Bool)
    (q : KazagumoQueue) : KazagumoQueue :=
  match track? with
  | some t =>
    let q1 := match q.current with
      | some c => if replaceCurrent then q else { q with pending := c :: q.pending }
      | none => q
    { q1 with current := some t }
  | none =>
    match q.current with
    | some _ => q
    | none => { q with current := q.pending.head?, pending := q.pending.tail }

/-- `play(track?, options?)`. The `await current.resolve()` is network
I/O; its outcome is passed in as `resolveOk`/`errMsg` (`resolveOk = true`
meaning resolution returned a track, `false` meaning it rejected with
message `errMsg`). The `track instanceof KazagumoTrack` guard cannot
fire for an `Option Nat` argument, and `current.setKazagumo` acts only
on the track entity. The recursive `this.play()` in the failure branch
is recorded as the `callPlay` effect. -/
def KazagumoPlayer.play (resolveOk : Bool) (errMsg : String)
    (track? : Option Nat) (replaceCurrent : Bool) (p : KazagumoPlayer) :
    Except KazagumoError (KazagumoPlayer × List Eff) :=
  if p.state = PlayerState.DESTROYED then .error ⟨1, "Player is already destroyed"⟩
  else if track?.isNone ∧ p.queue.totalSize = 0 then
    .error ⟨1, "No track is available to play"⟩
  else
    let q1 := selectTrack track? replaceCurrent p.queue
    match q1.current with
    | none => .error ⟨1, "No track is available to play"⟩
    | some cur =>
      if resolveOk then .ok ({ p with queue := q1 }, [.shoukakuPlayTrack cur])
      else
        let q2 := { q1 with current := none }
        .ok ({ p with queue := q2 },
          [.emit (.playerResolveError errMsg),
           .emit (.debug ("Player " ++ p.guildId ++ " resolve error: " ++ errMsg))] ++
          (if q2.size ≠ 0 then [.callPlay] else [.emit .playerEmpty]))

/-- `skip()`. -/
def KazagumoPlayer.skip (p : KazagumoPlayer) :
    Except KazagumoError (KazagumoPlayer × List Eff) :=
  if p.state = PlayerState.DESTROYED then .error ⟨1, "Player is already destroyed"⟩
  else .ok (p, [.shoukakuStopTrack])

/-- `setVolume(volume)`. The `isNaN` guard cannot fire for an `Int`
argument; the filter volume `volume / 100` lives on the shoukaku side
and is recorded only through the sent control message. -/
def KazagumoPlayer.setVolume (volume : Int) (p : KazagumoPlayer) :
    Except KazagumoError (KazagumoPlayer × List Eff) :=
  if p.state = PlayerState.DESTROYED then .error ⟨1, "Player is already destroyed"⟩
  else .ok (p, [.sendVolume volume])

/-- `connect()`. -/
def KazagumoPlayer.connect (p : KazagumoPlayer) :
    Except KazagumoError (KazagumoPlayer × List Eff) :=
  if p.state = PlayerState.DESTROYED then .error ⟨1, "Player is already destroyed"⟩
  else if p.state = PlayerState.CONNECTED ∨ truthyS p.voiceId = true then
    .error ⟨1, "Player is already connected"⟩
  else
    .ok ({ p with state := PlayerState.CONNECTED },
      [.sendVoiceUpdate p.guildId p.voiceId,
       .emit (.debug ("Player " ++ p.guildId ++ " connected"))])

/-- `disconnect()`. The guard `!this.voiceId` is JS truthiness, so it
also fires for an empty-string voice id. Passes through DISCONNECTING,
calls `pause(true)`, sends the leave payload, clears `voiceId`, ends
DISCONNECTED. -/
def KazagumoPlayer.disconnect (p : KazagumoPlayer) :
    Except KazagumoError (KazagumoPlayer × List Eff) :=
  if p.state = PlayerState.DISCONNECTED ∨ truthyS p.voiceId = false then
    .error ⟨1, "Player is already disconnected"⟩
  else
    match KazagumoPlayer.pause true { p with state := PlayerState.DISCONNECTING } with
    | .error e => .error e
    | .ok (p1, effs) =>
      .ok ({ p1 with voiceId := none, state := PlayerState.DISCONNECTED },
        effs ++ [.sendVoiceUpdate p.guildId none,
                 .emit (.debug ("Player disconnected; Guild id: " ++ p.guildId))])

/-- `destroy()`. Errors when already DESTROYING/DESTROYED; otherwise runs
`disconnect()` (which may itself throw), passes through DESTROYING while
tearing down the lavalink player, the listeners and the registry entry,
ends DESTROYED and emits the destroy event. -/
def KazagumoPlayer.destroy (p : KazagumoPlayer) :
    Except KazagumoError (KazagumoPlayer × List Eff) :=
  if p.state = PlayerState.DESTROYING ∨ p.state = PlayerState.DESTROYED then
    .error ⟨1, "Player is already destroyed"⟩
  else
    match KazagumoPlayer.disconnect p with
    | .error e => .error e
    | .ok (p1, effs) =>
      .ok ({ p1 with state := PlayerState.DESTROYED,
                     inRegistry := false, listenersAttached := false },
        effs ++ [.destroyLavalinkPlayer, .removeAllListeners,
                 .registryDelete p.guildId, .emit .playerDestroy,
                 .emit (.debug ("Player destroyed; Guild id: " ++ p.guildId))])

/-- The `'end'` notification handler installed in the constructor.
`reason` is the raw string from the worker; the recursive `this.play()`
calls are recorded as the `callPlay` effect. -/
def endHandler (reason : String) (p : KazagumoPlayer) :
    KazagumoPlayer × List Eff :=
  if p.state = PlayerState.DESTROYING ∨ p.state = PlayerState.DESTROYED then
    (p, [.emit (.debug ("Player " ++ p.guildId ++ " destroyed from end event"))])
  else if reason = "REPLACED" then (p, [.emit (.playerEnd none)])
  else if reason = "LOAD_FAILED" ∨ reason = "CLEAN_UP" then
    let p1 := { p with queue := { p.queue with previous := p.queue.current },
                       playing := false }
    if p1.queue.size = 0 then (p1, [.emit .playerEmpty])
    else
      ({ p1 with queue := { p1.queue with current := none } },
       [.emit (.playerEnd p.queue.current), .callPlay])
  else
    let q1 := match p.loop, p.queue.current with
      | LoopMode.ltrack, some c => { p.queue with pending := c :: p.queue.pending }
      | LoopMode.lqueue, some c => { p.queue with pending := p.queue.pending ++ [c] }
      | _, _ => p.queue
    let currentSong := q1.current
    let q2 := { q1 with previous := q1.current, current := none }
    if q2.size ≠ 0 then
      ({ p with queue := q2 }, [.emit (.playerEnd currentSong), .callPlay])
    else
      ({ p with queue := q2, playing := false }, [.emit .playerEmpty])

/-- The `info` record of a shoukaku `Track` as consumed by the source. -/
structure TrackInfo where
  title : String
  identifier : String
  uri : String
  author : String
  sourceName : String
  isSeekable : Bool
  isStream : Bool
  length : Int
  position : Int
deriving DecidableEq, Repr

/-- A shoukaku `Track`: a base64 playable identifier plus its info. -/
structure STrack where
  track : String
  info : TrackInfo
deriving DecidableEq, Repr

/-- JS truthiness of an optional numeric field (`!!this.length`):
false for `undefined` and for 0. -/
def truthyI : Option Int → Bool
  | none => false
  | some n => n ≠ 0

/-- `new RegExp('^' + escapeRegExp(name) + '$', 'i').test(s)`: with every
special character of `name` escaped, the anchored case-insensitive regex
test is exactly case-insensitive whole-string equality, modelled by
lower-casing both character sequences. -/
def eqCI (s name : String) : Bool :=
  s.data.map Char.toLower = name.data.map Char.toLower

/-- The predicate of the `officialTrack` search in `getTrack`: the
result's author equals `author` or `"{author} - Topic"`, or its title
equals the entity's `title` (all case-insensitive whole-string). -/
def officialMatch (author title : String) (t : STrack) : Bool :=
  eqCI t.info.author author || eqCI t.info.author (author ++ " - Topic") ||
    eqCI t.info.title title

/-- The predicate of the `sameDuration` search in `getTrack`: the
result's duration lies within ±2000 ms of the entity's `length`. -/
def durationMatch (len : Int) (t : STrack) : Bool :=
  len - 2000 ≤ t.info.length && t.info.length ≤ len + 2000

/-- The fields of `KazagumoTrack`; `hasKazagumo` records whether
`setKazagumo` has bound the entity to a session. -/
structure KazagumoTrack where
  hasKazagumo : Bool
  track : String
  sourceName : String
  title : String
  uri : String
  identifier : String
  isSeekable : Bool
  isStream : Bool
  author : Option String
  length : Option Int
  position : Option Int
  thumbnail : Option String
  realUri : Option String
  resolvedBySource : Bool
deriving DecidableEq, Repr

/-- The `readyToPlay` getter: bound to a session and every core field
truthy. -/
def KazagumoTrack.readyToPlay (tk : KazagumoTrack) : Bool :=
  tk.hasKazagumo && tk.track ≠ "" && tk.sourceName ≠ "" && tk.identifier ≠ "" &&
    truthyS tk.author && truthyI tk.length && tk.title ≠ "" && tk.uri ≠ "" &&
    truthyS tk.realUri

/-- The candidate-ranking core of `getTrack`, applied to the result list
returned by `node.rest.resolve`: an empty list is the thrown
"No results found" (`none` here); otherwise the author block runs first
(when `this.author` is truthy), then the duration block (when
`this.length` is truthy), then `result.tracks[0]`. -/
def getTrackSelect (tk : KazagumoTrack) (results : List STrack) : Option STrack :=
  if results.isEmpty then none
  else
    let fromAuthor :=
      match tk.author with
      | some a => if a ≠ "" then results.find? (officialMatch a tk.title) else none
      | none => none
    match fromAuthor with
    | some t => some t
    | none =>
      let fromDuration :=
        match tk.length with
        | some len => if len ≠ 0 then results.find? (durationMatch len) else none
        | none => none
      match fromDuration with
      | some t => some t
      | none => results.head?

/-- The session-side inputs of `resolve`/`getTrack`: whether the
configured `trackResolver` hook exists and what it returns, the
`sourceForceResolve` set, whether `getLeastUsedNode()` finds a node, and
the track list the node's search returns. -/
structure ResolveEnv where
  hookOutcome : Option Bool
  sourceForceResolve : List String
  nodeAvailable : Bool
  searchResults : List STrack
deriving Repr

/-- `resolve(options?)`. Returns the updated entity together with a flag
recording whether the fallback search (`getTrack`) was executed.
`opts = some (forceResolve, overwrite)`; an absent options object is
`none` (both default false). A configured hook that reports success
returns the entity unchanged (its own side effects live outside the
entity). -/
def KazagumoTrack.resolve (env : ResolveEnv) (opts : Option (Bool × Bool))
    (tk : KazagumoTrack) : Except KazagumoError (KazagumoTrack × Bool) :=
  if ¬ tk.hasKazagumo then .error ⟨1, "Kazagumo is not set"⟩
  else if env.hookOutcome = some true then .ok (tk, false)
  else
    let resolveSource := env.sourceForceResolve.contains tk.sourceName
    let forceResolve := (opts.getD (false, false)).1
    let overwrite := (opts.getD (false, false)).2
    if ¬ forceResolve ∧ tk.readyToPlay then .ok (tk, false)
    else if resolveSource ∧ tk.resolvedBySource then .ok (tk, false)
    else
      let tk1 := if resolveSource then { tk with resolvedBySource := true } else tk
      if ¬ env.nodeAvailable then .error ⟨1, "No nodes available"⟩
      else
        match getTrackSelect tk1 env.searchResults with
        | none => .error ⟨2, "No results found"⟩
        | some result =>
          let tk2 := { tk1 with track := result.track,
                                realUri := some result.info.uri,
                                length := some result.info.length }
          let tk3 :=
            if overwrite ∨ resolveSource then
              { tk2 with title := result.info.title,
                         identifier := result.info.identifier,
                         isSeekable := result.info.isSeekable,
                         author := some result.info.author,
                         isStream := result.info.isStream,
                         uri := result.info.uri }
            else tk2
          .ok (tk3, true)

/-! Concrete sample values used by witnesses and counterexamples. -/

/-- A live connected player with a current track and two pending tracks. -/
def samplePlayer : KazagumoPlayer :=
  { guildId := "g1", voiceId := some "v1", textId := "t1",
    state := PlayerState.CONNECTED, paused := false, playing := true,
    loop := LoopMode.lnone,
    queue := { pending := [2, 3], current := some 1, previous := none },
    inRegistry := true, listenersAttached := true }

/-- A player that has completed `destroy()`. -/
def destroyedPlayer : KazagumoPlayer :=
  { guildId := "g1", voiceId := none, textId := "t1",
    state := PlayerState.DESTROYED, paused := true, playing := false,
    loop := LoopMode.lnone,
    queue := { pending := [], current := none, previous := none },
    inRegistry := false, listenersAttached := false }

/-- A player that has completed `disconnect()` but was never destroyed. -/
def disconnectedPlayer : KazagumoPlayer :=
  { guildId := "g1", voiceId := none, textId := "t1",
    state := PlayerState.DISCONNECTED, paused := true, playing := false,
    loop := LoopMode.lnone,
    queue := { pending := [2], current := some 1, previous := none },
    inRegistry := true, listenersAttached := true }

/-- A connected player whose voice channel id was never set. -/
def noVoicePlayer : KazagumoPlayer :=
  { guildId := "g2", voiceId := none, textId := "t2",
    state := PlayerState.CONNECTED, paused := false, playing := true,
    loop := LoopMode.lnone,
    queue := { pending := [], current := some 4, previous := none },
    inRegistry := true, listenersAttached := true }

/-- An indirect-source track entity with author "X" and title "Y". -/
def tkX : KazagumoTrack :=
  { hasKazagumo := true, track := "b64", sourceName := "spotify",
    title := "Y", uri := "u0", identifier := "id0",
    isSeekable := true, isStream := false, author := some "X",
    length := some 100000, position := some 0, thumbnail := none,
    realUri := none, resolvedBySource := false }

/-- An authorless track entity with length 180000. -/
def tkNoAuthor : KazagumoTrack :=
  { hasKazagumo := true, track := "b64n", sourceName := "spotify",
    title := "T", uri := "u9", identifier := "id9",
    isSeekable := true, isStream := false, author := none,
    length := some 180000, position := some 0, thumbnail := none,
    realUri := none, resolvedBySource := false }

/-- A fully resolved, session-bound track entity. -/
def tkReady : KazagumoTrack :=
  { hasKazagumo := true, track := "b64r", sourceName := "youtube",
    title := "R", uri := "u1", identifier := "id1",
    isSeekable := true, isStream := false, author := some "A",
    length := some 60000, position := some 0, thumbnail := none,
    realUri := some "u1", resolvedBySource := false }

/-- Search result whose title is "Y" but whose author matches nothing. -/
def rTitleY : STrack := ⟨"s1", ⟨"Y", "i1", "w1", "Z", "youtube", true, false, 999999, 0⟩⟩

/-- Search result reported by the author channel "X - Topic". -/
def rTopic : STrack := ⟨"s2", ⟨"W", "i2", "w2", "X - Topic", "youtube", true, false, 100000, 0⟩⟩

/-- Search result matching neither author, title, nor duration. -/
def rNoMatch : STrack := ⟨"s3", ⟨"B", "i3", "w3", "A", "youtube", true, false, 500000, 0⟩⟩

/-- Search result whose only relation to `tkX` is the matching duration. -/
def rDur : STrack := ⟨"s4", ⟨"D", "i4", "w4", "C", "youtube", true, false, 100000, 0⟩⟩

/-- Search results of durations 150000, 179000 and 181500. -/
def rLen150 : STrack := ⟨"s5", ⟨"E", "i5", "w5", "F", "youtube", true, false, 150000, 0⟩⟩

def rLen179 : STrack := ⟨"s6", ⟨"G", "i6", "w6", "H", "youtube", true, false, 179000, 0⟩⟩

def rLen1815 : STrack := ⟨"s7", ⟨"I", "i7", "w7", "J", "youtube", true, false, 181500, 0⟩⟩

/-! Claim theorems. -/

/-- C7: for a track entity with no author and length 180000, with search
results of durations [150000, 179000, 181500] in that order, the
fallback search selects the 179000 entry (inside the ±2000 ms window),
not the 181500 entry. -/
theorem duration_window_selects_179000 :
    getTrackSelect tkNoAuthor [rLen150, rLen179, rLen1815] = some rLen179 ∧
      rLen179.info.length = 179000 ∧ rLen1815.info.length = 181500 := by
  decide

/-- The loop value after one argument-less `setLoop()` call
(`setLoop(undefined)` never throws). -/
def stepLoop (p : KazagumoPlayer) : KazagumoPlayer :=
  match KazagumoPlayer.setLoop none p with
  | .ok (p', _) => p'
  | .error _ => p

/-- C9: `setLoop` with no argument cycles exactly
none→queue→track→none, so three argument-less calls restore the loop
field from any starting mode; an explicit valid mode is set directly;
an invalid mode raises the invalid-argument error. -/
theorem setLoop_cycles (p : KazagumoPlayer) :
    (p.loop = LoopMode.lnone →
      KazagumoPlayer.setLoop none p = .ok ({ p with loop := LoopMode.lqueue }, []))
  ∧ (p.loop = LoopMode.lqueue →
      KazagumoPlayer.setLoop none p = .ok ({ p with loop := LoopMode.ltrack }, []))
  ∧ (p.loop = LoopMode.ltrack →
      KazagumoPlayer.setLoop none p = .ok ({ p with loop := LoopMode.lnone }, []))
  ∧ (stepLoop (stepLoop (stepLoop p))).loop = p.loop
  ∧ KazagumoPlayer.setLoop (some "none") p = .ok ({ p with loop := LoopMode.lnone }, [])
  ∧ KazagumoPlayer.setLoop (some "queue") p = .ok ({ p with loop := LoopMode.lqueue }, [])
  ∧ KazagumoPlayer.setLoop (some "track") p = .ok ({ p with loop := LoopMode.ltrack }, [])
  ∧ ∀ s : String, s ≠ "none" → s ≠ "queue" → s ≠ "track" →
      KazagumoPlayer.setLoop (some s) p =
        .error ⟨1, "loop must be one of 'none', 'queue', 'track'"⟩ := by
  refine ⟨?_, ?_, ?_, ?_, ?_, ?_, ?_, ?_⟩
  · intro h; simp [KazagumoPlayer.setLoop, h]
  · intro h; simp [KazagumoPlayer.setLoop, h]
  · intro h; simp [KazagumoPlayer.setLoop, h]
  · cases hl : p.loop <;> simp [stepLoop, KazagumoPlayer.setLoop, hl]
  · simp [KazagumoPlayer.setLoop]
  · simp [KazagumoPlayer.setLoop]
  · simp [KazagumoPlayer.setLoop]
  · intro s h1 h2 h3; simp [KazagumoPlayer.setLoop, h1, h2, h3]

/-- Witness for C9 at a concrete player starting from loop mode none. -/
theorem setLoop_cycles_witness :
    KazagumoPlayer.setLoop none samplePlayer =
        .ok ({ samplePlayer with loop := LoopMode.lqueue }, [])
    ∧ (stepLoop (stepLoop (stepLoop samplePlayer))).loop = samplePlayer.loop
    ∧ KazagumoPlayer.setLoop (some "abc") samplePlayer =
        .error ⟨1, "loop must be one of 'none', 'queue', 'track'"⟩ :=
  ⟨(setLoop_cycles samplePlayer).1 rfl,
   (setLoop_cycles samplePlayer).2.2.2.1,
   (setLoop_cycles samplePlayer).2.2.2.2.2.2.2 "abc"
     (by decide) (by decide) (by decide)⟩

/-- C8: `resolve` with `forceResolve` false on an entity that is already
`readyToPlay` (hence bound to a session) returns the entity with every
field unchanged and performs no search. -/
theorem resolve_ready_noop (env : ResolveEnv) (opts : Option (Bool × Bool))
    (tk : KazagumoTrack) (hready : tk.readyToPlay = true)
    (hforce : (opts.getD (false, false)).1 = false) :
    KazagumoTrack.resolve env opts tk = .ok (tk, false) := by
  have h := hready
  simp only [KazagumoTrack.readyToPlay, Bool.and_eq_true] at h
  have hk : tk.hasKazagumo = true := h.1.1.1.1.1.1.1.1
  by_cases hh : env.hookOutcome = some true <;>
    simp [KazagumoTrack.resolve, hk, hh, hforce, hready]

/-- Witness for C8 on a concrete ready track with an empty options
object and a hookless session. -/
theorem resolve_ready_noop_witness :
    tkReady.readyToPlay = true ∧
      KazagumoTrack.resolve ⟨none, ["spotify"], true, [rTopic]⟩ none tkReady =
        .ok (tkReady, false) :=
  ⟨by decide, resolve_ready_noop ⟨none, ["spotify"], true, [rTopic]⟩ none tkReady
      (by decide) rfl⟩

/-- C3: every `resolve()` failure inside `play()` is caught locally:
whenever the track-selection phase produced a current track and the
state guard passed, a failing resolution yields a normal (`.ok`) return
— never a thrown error — emitting the resolve-error event with the
error message plus the debug event, clearing `queue.current`, and then
either re-invoking `play()` (when pending tracks remain) or emitting
the player-empty event. -/
theorem play_resolve_failure_caught (p : KazagumoPlayer) (cur : Nat)
    (errMsg : String) (track? : Option Nat) (rc : Bool)
    (hstate : p.state ≠ PlayerState.DESTROYED)
    (hsel : (selectTrack track? rc p.queue).current = some cur) :
    KazagumoPlayer.play false errMsg track? rc p =
      .ok ({ p with queue := { selectTrack track? rc p.queue with current := none } },
        [.emit (.playerResolveError errMsg),
         .emit (.debug ("Player " ++ p.guildId ++ " resolve error: " ++ errMsg))] ++
        (if ({ selectTrack track? rc p.queue with current := none } :
              KazagumoQueue).size ≠ 0 then [.callPlay]
         else [.emit .playerEmpty])) := by
  have hne : ¬ (track?.isNone ∧ p.queue.totalSize = 0) := by
    rintro ⟨h1, h2⟩
    have ht : track? = none := by cases track? <;> simp_all
    have hc : p.queue.current = none := by
      unfold KazagumoQueue.totalSize at h2
      cases hcc : p.queue.current <;> simp [hcc] at h2 ⊢
    have hp : p.queue.pending = [] := by
      unfold KazagumoQueue.totalSize KazagumoQueue.size at h2
      simp [hc] at h2
      exact h2
    rw [ht] at hsel
    simp [selectTrack, hc, hp] at hsel
  simp only [KazagumoPlayer.play]
  rw [if_neg hstate, if_neg hne, hsel]
  rfl

/-- Witness for C3: a concrete player whose current track fails to
resolve self-skips into another `play()` call. -/
theorem play_resolve_failure_caught_witness :
    KazagumoPlayer.play false "no results" none false samplePlayer =
      .ok ({ samplePlayer with
              queue := { pending := [2, 3], current := none, previous := none } },
        [.emit (.playerResolveError "no results"),
         .emit (.debug "Player g1 resolve error: no results"), .callPlay]) := by
  have h := play_resolve_failure_caught samplePlayer 1 "no results" none false
    (by decide) (by decide)
  simpa [samplePlayer, selectTrack, KazagumoQueue.size] using h

/-- C4: an end notification with reason LOAD_FAILED or CLEAN_UP on a
player that is not DESTROYING/DESTROYED and whose queue holds 2 pending
tracks sets `previous` to the old current, sets `playing` to false,
emits exactly one player-end event, clears `current`, and re-invokes
`play()`; no player-empty event is emitted. -/
theorem end_load_failed_advances (p : KazagumoPlayer) (reason : String)
    (h1 : p.state ≠ PlayerState.DESTROYING)
    (h2 : p.state ≠ PlayerState.DESTROYED)
    (hr : reason = "LOAD_FAILED" ∨ reason = "CLEAN_UP")
    (hq : p.queue.pending.length = 2) :
    endHandler reason p =
      ({ p with playing := false,
                queue := { p.queue with previous := p.queue.current,
                                        current := none } },
       [.emit (.playerEnd p.queue.current), .callPlay]) := by
  have hrep : reason ≠ "REPLACED" := by rcases hr with h | h <;> subst h <;> decide
  have hst : ¬ (p.state = PlayerState.DESTROYING ∨ p.state = PlayerState.DESTROYED) := by
    simp [h1, h2]
  simp [endHandler, hst, hrep, hr, KazagumoQueue.size, hq]

/-- Witness for C4 at a concrete player with two pending tracks. -/
theorem end_load_failed_advances_witness :
    endHandler "LOAD_FAILED" samplePlayer =
      ({ samplePlayer with
          playing := false,
          queue := { pending := [2, 3], current := none, previous := some 1 } },
       [.emit (.playerEnd (some 1)), .callPlay]) := by
  have h := end_load_failed_advances samplePlayer "LOAD_FAILED"
    (by decide) (by decide) (Or.inl rfl) (by decide)
  simpa [samplePlayer] using h

/-- C5: with `loop = track` and a current track, an end notification
with a default-case reason (not REPLACED/LOAD_FAILED/CLEAN_UP, state
not DESTROYING/DESTROYED) re-enqueues the just-finished track at the
front of the pending queue, and the subsequent successful `play()`
cycle makes `queue.current` that same track again. -/
theorem end_loop_track_replays (p : KazagumoPlayer) (reason : String)
    (c : Nat) (msg : String)
    (h1 : p.state ≠ PlayerState.DESTROYING)
    (h2 : p.state ≠ PlayerState.DESTROYED)
    (hr1 : reason ≠ "REPLACED") (hr2 : reason ≠ "LOAD_FAILED")
    (hr3 : reason ≠ "CLEAN_UP")
    (hl : p.loop = LoopMode.ltrack) (hc : p.queue.current = some c) :
    endHandler reason p =
      ({ p with queue := { pending := c :: p.queue.pending, current := none,
                           previous := some c } },
       [.emit (.playerEnd (some c)), .callPlay])
    ∧ KazagumoPlayer.play true msg none false
        ({ p with queue := { pending := c :: p.queue.pending, current := none,
                             previous := some c } }) =
      .ok ({ p with queue := { pending := p.queue.pending, current := some c,
                               previous := some c } },
        [.shoukakuPlayTrack c]) := by
  have hst : ¬ (p.state = PlayerState.DESTROYING ∨ p.state = PlayerState.DESTROYED) := by
    simp [h1, h2]
  constructor
  · simp [endHandler, hst, hr1, hr2, hr3, hl, hc, KazagumoQueue.size]
  · simp [KazagumoPlayer.play, h2, KazagumoQueue.totalSize, KazagumoQueue.size,
      selectTrack]

/-- Witness for C5: a concrete looping player replays track 1. -/
theorem end_loop_track_replays_witness :
    endHandler "FINISHED" { samplePlayer with loop := LoopMode.ltrack } =
      ({ samplePlayer with
          loop := LoopMode.ltrack,
          queue := { pending := 1 :: [2, 3], current := none, previous := some 1 } },
       [.emit (.playerEnd (some 1)), .callPlay])
    ∧ KazagumoPlayer.play true "" none false
        ({ samplePlayer with
            loop := LoopMode.ltrack,
            queue := { pending := 1 :: [2, 3], current := none, previous := some 1 } }) =
      .ok ({ samplePlayer with
              loop := LoopMode.ltrack,
              queue := { pending := [2, 3], current := some 1, previous := some 1 } },
        [.shoukakuPlayTrack 1]) := by
  have h := end_loop_track_replays { samplePlayer with loop := LoopMode.ltrack }
    "FINISHED" 1 "" (by decide) (by decide) (by decide) (by decide) (by decide)
    rfl rfl
  simpa [samplePlayer] using h

/-- C1 counterexample: `setLoop` performs no state check, so on a
DESTROYED player the argument-less call succeeds and mutates the loop
field instead of failing with an InvalidState error; `pause` likewise
returns normally. -/
theorem setLoop_on_destroyed_succeeds :
    KazagumoPlayer.setLoop none destroyedPlayer =
        .ok ({ destroyedPlayer with loop := LoopMode.lqueue }, [])
    ∧ ({ destroyedPlayer with loop := LoopMode.lqueue }).loop ≠ destroyedPlayer.loop
    ∧ KazagumoPlayer.pause false destroyedPlayer = .ok (destroyedPlayer, []) :=
  ⟨rfl, by decide, rfl⟩

/-- C1 amended: on a DESTROYED player (whose `voiceId` is null, as holds
for every player that reached DESTROYED through `destroy()`), the
operations setTextChannel, setVoiceChannel, play, skip, setVolume,
connect, destroy and disconnect all fail; `pause` and `setLoop` do not
check the state and return normally; and no operation moves the state
away from DESTROYED. -/
theorem destroyed_is_terminal (p : KazagumoPlayer)
    (h : p.state = PlayerState.DESTROYED) (hv : p.voiceId = none) :
    (∀ tid, p.setTextChannel tid = .error ⟨1, "Player is already destroyed"⟩)
  ∧ (∀ vid, p.setVoiceChannel vid = .error ⟨1, "Player is already destroyed"⟩)
  ∧ (∀ ok msg t rc, KazagumoPlayer.play ok msg t rc p =
      .error ⟨1, "Player is already destroyed"⟩)
  ∧ p.skip = .error ⟨1, "Player is already destroyed"⟩
  ∧ (∀ v, p.setVolume v = .error ⟨1, "Player is already destroyed"⟩)
  ∧ p.connect = .error ⟨1, "Player is already destroyed"⟩
  ∧ p.destroy = .error ⟨1, "Player is already destroyed"⟩
  ∧ p.disconnect = .error ⟨1, "Player is already disconnected"⟩
  ∧ (∀ b, ∃ q effs, p.pause b = .ok (q, effs) ∧ q.state = PlayerState.DESTROYED)
  ∧ (∀ m q effs, KazagumoPlayer.setLoop m p = .ok (q, effs) →
      q.state = PlayerState.DESTROYED)
  ∧ (∃ q effs, KazagumoPlayer.setLoop none p = .ok (q, effs)) := by
  refine ⟨?_, ?_, ?_, ?_, ?_, ?_, ?_, ?_, ?_, ?_, ?_⟩
  · intro tid; simp [KazagumoPlayer.setTextChannel, h]
  · intro vid; simp [KazagumoPlayer.setVoiceChannel, h]
  · intro ok msg t rc; simp [KazagumoPlayer.play, h]
  · simp [KazagumoPlayer.skip, h]
  · intro v; simp [KazagumoPlayer.setVolume, h]
  · simp [KazagumoPlayer.connect, h]
  · simp [KazagumoPlayer.destroy, h]
  · simp [KazagumoPlayer.disconnect, hv, truthyS]
  · intro b
    by_cases hb : p.paused = b ∨ p.queue.totalSize = 0
    · exact ⟨p, [], by simp [KazagumoPlayer.pause, hb], h⟩
    · exact ⟨{ p with paused := b, playing := !b }, [.shoukakuSetPaused b],
        by simp [KazagumoPlayer.pause, hb], h⟩
  · intro m q effs hok
    match m with
    | none =>
      cases hl : p.loop <;> simp [KazagumoPlayer.setLoop, hl] at hok <;>
        simp [← hok.1, h]
    | some s =>
      by_cases h1 : s = "none"
      · simp [KazagumoPlayer.setLoop, h1] at hok; simp [← hok.1, h]
      · by_cases h2 : s = "queue"
        · simp [KazagumoPlayer.setLoop, h1, h2] at hok; simp [← hok.1, h]
        · by_cases h3 : s = "track"
          · simp [KazagumoPlayer.setLoop, h1, h2, h3] at hok; simp [← hok.1, h]
          · simp [KazagumoPlayer.setLoop, h1, h2, h3] at hok
  · cases hl : p.loop
    · exact ⟨{ p with loop := LoopMode.lqueue }, [],
        by simp [KazagumoPlayer.setLoop, hl]⟩
    · exact ⟨{ p with loop := LoopMode.ltrack }, [],
        by simp [KazagumoPlayer.setLoop, hl]⟩
    · exact ⟨{ p with loop := LoopMode.lnone }, [],
        by simp [KazagumoPlayer.setLoop, hl]⟩

/-- Witness for the amended C1 at the concrete destroyed player. -/
theorem destroyed_is_terminal_witness :
    KazagumoPlayer.skip destroyedPlayer = .error ⟨1, "Player is already destroyed"⟩
    ∧ KazagumoPlayer.destroy destroyedPlayer =
        .error ⟨1, "Player is already destroyed"⟩
    ∧ KazagumoPlayer.setTextChannel "t9" destroyedPlayer =
        .error ⟨1, "Player is already destroyed"⟩ :=
  ⟨(destroyed_is_terminal destroyedPlayer rfl rfl).2.2.2.1,
   (destroyed_is_terminal destroyedPlayer rfl rfl).2.2.2.2.2.2.1,
   (destroyed_is_terminal destroyedPlayer rfl rfl).1 "t9"⟩

/-- C6 counterexample: on a player that is neither DESTROYING nor
DESTROYED but is already voice-disconnected, the FIRST `destroy()` call
already fails (with the disconnect error), so it does not reach
DESTROYED. -/
theorem destroy_first_call_fails_when_disconnected :
    disconnectedPlayer.state ≠ PlayerState.DESTROYING
    ∧ disconnectedPlayer.state ≠ PlayerState.DESTROYED
    ∧ KazagumoPlayer.destroy disconnectedPlayer =
        .error ⟨1, "Player is already disconnected"⟩ :=
  ⟨by decide, by decide, rfl⟩

/-- C6 amended: for every player not already DESTROYING/DESTROYED that
still has a live voice link (state not DISCONNECTED and `voiceId`
truthy, i.e. non-null and non-empty), the first `destroy()` call
succeeds: it disconnects (sends the voice-leave payload and clears
`voiceId`), tears down the worker-side lavalink player, detaches the
listeners, removes the player from the registry, reaches state
DESTROYED and emits the destroy event; the second call fails with the
InvalidState error. -/
theorem destroy_twice (p : KazagumoPlayer)
    (h1 : p.state ≠ PlayerState.DESTROYING)
    (h2 : p.state ≠ PlayerState.DESTROYED)
    (h3 : p.state ≠ PlayerState.DISCONNECTED)
    (h4 : truthyS p.voiceId = true) :
    ∃ p1 effs0,
      p.destroy = .ok (p1, effs0 ++
        [.destroyLavalinkPlayer, .removeAllListeners, .registryDelete p.guildId,
         .emit .playerDestroy,
         .emit (.debug ("Player destroyed; Guild id: " ++ p.guildId))])
      ∧ p1.state = PlayerState.DESTROYED
      ∧ p1.inRegistry = false
      ∧ p1.listenersAttached = false
      ∧ p1.voiceId = none
      ∧ Eff.sendVoiceUpdate p.guildId none ∈ effs0
      ∧ p1.destroy = .error ⟨1, "Player is already destroyed"⟩ := by
  have hst : ¬ (p.state = PlayerState.DESTROYING ∨ p.state = PlayerState.DESTROYED) := by
    simp [h1, h2]
  have hdc : ¬ (p.state = PlayerState.DISCONNECTED ∨ truthyS p.voiceId = false) := by
    simp [h3, h4]
  by_cases hb : p.paused = true ∨ p.queue.totalSize = 0
  · refine ⟨{ p with
        voiceId := none,
        state := PlayerState.DESTROYED,
        inRegistry := false,
        listenersAttached := false },
      [Eff.sendVoiceUpdate p.guildId none,
       Eff.emit (Event.debug ("Player disconnected; Guild id: " ++ p.guildId))],
      ?_, rfl, rfl, rfl, rfl, ?_, ?_⟩
    · simp [KazagumoPlayer.destroy, KazagumoPlayer.disconnect, KazagumoPlayer.pause,
        hst, hdc, hb]
    · simp
    · simp [KazagumoPlayer.destroy]
  · refine ⟨{ p with
        paused := true,
        playing := false,
        voiceId := none,
        state := PlayerState.DESTROYED,
        inRegistry := false,
        listenersAttached := false },
      [Eff.shoukakuSetPaused true, Eff.sendVoiceUpdate p.guildId none,
       Eff.emit (Event.debug ("Player disconnected; Guild id: " ++ p.guildId))],
      ?_, rfl, rfl, rfl, rfl, ?_, ?_⟩
    · simp [KazagumoPlayer.destroy, KazagumoPlayer.disconnect, KazagumoPlayer.pause,
        hst, hdc, hb]
    · simp
    · simp [KazagumoPlayer.destroy]

/-- Witness for the amended C6: destroying the connected sample player
succeeds once and errors on the repeat. -/
theorem destroy_twice_witness :
    ∃ p1 effs0,
      samplePlayer.destroy = .ok (p1, effs0 ++
        [.destroyLavalinkPlayer, .removeAllListeners,
         .registryDelete samplePlayer.guildId, .emit .playerDestroy,
         .emit (.debug ("Player destroyed; Guild id: " ++ samplePlayer.guildId))])
      ∧ p1.state = PlayerState.DESTROYED
      ∧ p1.inRegistry = false
      ∧ p1.listenersAttached = false
      ∧ p1.voiceId = none
      ∧ Eff.sendVoiceUpdate samplePlayer.guildId none ∈ effs0
      ∧ p1.destroy = .error ⟨1, "Player is already destroyed"⟩ :=
  destroy_twice samplePlayer (by decide) (by decide) (by decide) (by decide)

/-- C10 counterexample: a player whose `voiceId` is null but whose state
is DESTROYED is inside the claim's scope, yet `destroy()` on it throws
the "Player is already destroyed" error from the initial state guard,
not the "Player is already disconnected" error from `disconnect()`. -/
theorem destroy_on_destroyed_error_differs :
    destroyedPlayer.voiceId = none
    ∧ KazagumoPlayer.destroy destroyedPlayer =
        .error ⟨1, "Player is already destroyed"⟩
    ∧ ("Player is already destroyed" : String) ≠ "Player is already disconnected" :=
  ⟨rfl, rfl, by decide⟩

/-- C10 amended: for every player not DESTROYING/DESTROYED whose state
is DISCONNECTED or whose `voiceId` is null, `destroy()` fails with the
"Player is already disconnected" error raised by its internal
`disconnect()` call before any teardown step runs, so the player keeps
its state, its registry entry and its listeners and cannot be
destroyed. -/
theorem destroy_blocked_when_disconnected (p : KazagumoPlayer)
    (h1 : p.state ≠ PlayerState.DESTROYING)
    (h2 : p.state ≠ PlayerState.DESTROYED)
    (h : p.state = PlayerState.DISCONNECTED ∨ p.voiceId = none) :
    p.destroy = .error ⟨1, "Player is already disconnected"⟩ := by
  have hst : ¬ (p.state = PlayerState.DESTROYING ∨ p.state = PlayerState.DESTROYED) := by
    simp [h1, h2]
  have hg : p.state = PlayerState.DISCONNECTED ∨ truthyS p.voiceId = false := by
    rcases h with h | h
    · exact Or.inl h
    · exact Or.inr (by simp [h, truthyS])
  simp [KazagumoPlayer.destroy, KazagumoPlayer.disconnect, hst, hg]

/-- Witness for the amended C10 at a connected player without a voice
channel id. -/
theorem destroy_blocked_when_disconnected_witness :
    KazagumoPlayer.destroy noVoicePlayer =
      .error ⟨1, "Player is already disconnected"⟩ :=
  destroy_blocked_when_disconnected noVoicePlayer (by decide) (by decide)
    (Or.inr rfl)

/-- C2 counterexample, both defects at concrete inputs. First: for the
entity with author "X" and title "Y", the earlier result whose title is
"Y" is selected over the later result whose author is exactly
"X - Topic" — selection among matching results is order-dependent, not
"regardless of result ordering". Second: with the author present and no
author/title match among the results, the duration criterion is still
applied (the in-window second result wins over the first result), so it
is not reserved to entities without an author. -/
theorem author_layering_counterexample :
    tkX.author = some "X" ∧ tkX.title = "Y"
    ∧ rTopic.info.author = "X - Topic"
    ∧ getTrackSelect tkX [rTitleY, rTopic] = some rTitleY
    ∧ rTitleY ≠ rTopic
    ∧ tkX.length = some 100000
    ∧ getTrackSelect tkX [rNoMatch, rDur] = some rDur
    ∧ rDur ≠ rNoMatch
    ∧ durationMatch 100000 rDur = true
    ∧ officialMatch "X" "Y" rNoMatch = false
    ∧ officialMatch "X" "Y" rDur = false := by
  refine ⟨rfl, rfl, rfl, by decide, by decide, rfl, by decide, by decide,
    by decide, by decide, by decide⟩

/-- When the entity's author is truthy and the author/title predicate
finds a result, `getTrackSelect` returns exactly that first match. -/
lemma getTrackSelect_author_found (tk : KazagumoTrack) (results : List STrack)
    (a : String) (t : STrack) (ha : tk.author = some a) (ha' : a ≠ "")
    (hf : results.find? (officialMatch a tk.title) = some t) :
    getTrackSelect tk results = some t := by
  have hmem := List.mem_of_find?_eq_some hf
  cases results with
  | nil => cases hmem
  | cons x xs => simp [getTrackSelect, ha, ha', hf]

/-- C2 amended: fallback ranking is layered with the FIRST result
satisfying each layer winning. For an entity with a truthy author, the
first result whose author equals (case-insensitive, whole-string) the
author or "{author} - Topic" or whose title equals the entity's title
is selected; when no result satisfies that predicate and the entity's
length is truthy, the first result within ±2000 ms is selected; in
particular a result reported by "{author} - Topic" is selected
regardless of its position whenever no other result satisfies the
author/title predicate. -/
theorem getTrack_ranking (tk : KazagumoTrack) (results : List STrack)
    (a : String) (ha : tk.author = some a) (ha' : a ≠ "") :
    (∀ t, results.find? (officialMatch a tk.title) = some t →
        getTrackSelect tk results = some t)
  ∧ (∀ len t, results.find? (officialMatch a tk.title) = none →
        tk.length = some len → len ≠ 0 →
        results.find? (durationMatch len) = some t →
        getTrackSelect tk results = some t)
  ∧ (∀ t, t ∈ results → eqCI t.info.author (a ++ " - Topic") = true →
        (∀ r ∈ results, officialMatch a tk.title r = true → r = t) →
        getTrackSelect tk results = some t) := by
  refine ⟨?_, ?_, ?_⟩
  · intro t hf
    exact getTrackSelect_author_found tk results a t ha ha' hf
  · intro len t hnone hlen hlen0 hdur
    have hmem := List.mem_of_find?_eq_some hdur
    cases results with
    | nil => cases hmem
    | cons x xs => simp [getTrackSelect, ha, ha', hnone, hlen, hlen0, hdur]
  · intro t hmem htopic huniq
    have hpt : officialMatch a tk.title t = true := by
      simp [officialMatch, htopic]
    have hsome : (results.find? (officialMatch a tk.title)).isSome := by
      rw [List.find?_isSome]
      exact ⟨t, hmem, hpt⟩
    obtain ⟨t0, ht0⟩ := Option.isSome_iff_exists.mp hsome
    have heq := huniq t0 (List.mem_of_find?_eq_some ht0) (List.find?_some ht0)
    rw [heq] at ht0
    exact getTrackSelect_author_found tk results a t ha ha' ht0

/-- Witness for the amended C2: the "X - Topic" result is selected even
from the last position when nothing else matches. -/
theorem getTrack_ranking_witness :
    getTrackSelect tkX [rNoMatch, rTopic] = some rTopic :=
  (getTrack_ranking tkX [rNoMatch, rTopic] "X" rfl (by decide)).2.2 rTopic
    (by decide) (by decide) (by decide)

end Kazagumo
